import Mathlib

/-!
Verification of the core signal-generation and backtesting engine of the
SP500 Technical Indicators Monitor (`src/enhanced_siegel.py`,
class `EnhancedSiegelStrategy`).

The engine is embedded shallowly: pandas/numpy float columns become lists of
an extended-rational value `PF` (finite rational, `+inf`, `-inf`, `nan`)
whose arithmetic and comparisons follow IEEE-754 special-value rules exactly
as numpy/pandas realise them (comparisons involving `nan` are `false`;
division of a nonzero finite by zero yields a signed infinity; `0/0`,
`inf - inf`, `inf/inf`, `0 * inf` yield `nan`).  Rolling/windowed pandas
operations become explicit window functions over lists with the pandas
default `min_periods = window` semantics (any `nan` inside the window, or a
window extending past the start of the series, makes the result `nan`).
-/

/-- Extended value type modelling a numpy/pandas float: a finite value
(modelled exactly as a rational), positive or negative infinity, or `nan`. -/
inductive PF where
  | nan : PF
  | inf : PF
  | ninf : PF
  | num : ℚ → PF
deriving DecidableEq

instance : Inhabited PF := ⟨PF.nan⟩

namespace PF

/-- Is the value `nan` (pandas "missing"). -/
def isNan : PF → Bool
  | nan => true
  | _ => false

/-- IEEE negation. -/
def neg : PF → PF
  | nan => nan
  | inf => ninf
  | ninf => inf
  | num q => num (-q)

/-- IEEE addition (`inf + (-inf) = nan`). -/
def add : PF → PF → PF
  | nan, _ => nan
  | _, nan => nan
  | inf, ninf => nan
  | ninf, inf => nan
  | inf, _ => inf
  | _, inf => inf
  | ninf, _ => ninf
  | _, ninf => ninf
  | num a, num b => num (a + b)

/-- IEEE subtraction. -/
def sub (a b : PF) : PF := add a (neg b)

/-- IEEE multiplication (`0 * inf = nan`). -/
def mul : PF → PF → PF
  | nan, _ => nan
  | _, nan => nan
  | inf, inf => inf
  | inf, ninf => ninf
  | ninf, inf => ninf
  | ninf, ninf => inf
  | inf, num b => if 0 < b then inf else if b < 0 then ninf else nan
  | num a, inf => if 0 < a then inf else if a < 0 then ninf else nan
  | ninf, num b => if 0 < b then ninf else if b < 0 then inf else nan
  | num a, ninf => if 0 < a then ninf else if a < 0 then inf else nan
  | num a, num b => num (a * b)

/-- IEEE division as numpy performs it on float columns: a nonzero finite
divided by zero gives a signed infinity, `0/0` gives `nan`. -/
def div : PF → PF → PF
  | nan, _ => nan
  | _, nan => nan
  | inf, inf => nan
  | inf, ninf => nan
  | ninf, inf => nan
  | ninf, ninf => nan
  | num _, inf => num 0
  | num _, ninf => num 0
  | inf, num b => if b < 0 then ninf else inf
  | ninf, num b => if b < 0 then inf else ninf
  | num a, num b =>
      if b = 0 then (if 0 < a then inf else if a < 0 then ninf else nan)
      else num (a / b)

/-- IEEE strict less-than: any comparison involving `nan` is `false`. -/
def lt : PF → PF → Bool
  | nan, _ => false
  | _, nan => false
  | inf, _ => false
  | _, inf => true
  | ninf, ninf => false
  | ninf, _ => true
  | _, ninf => false
  | num a, num b => decide (a < b)

/-- IEEE strict greater-than. -/
def gt (a b : PF) : Bool := lt b a

/-- IEEE equality test: `nan` is equal to nothing, including itself. -/
def eqv : PF → PF → Bool
  | inf, inf => true
  | ninf, ninf => true
  | num a, num b => decide (a = b)
  | _, _ => false

/-- IEEE greater-or-equal. -/
def ge (a b : PF) : Bool := gt a b || eqv a b

/-- IEEE less-or-equal. -/
def le (a b : PF) : Bool := lt a b || eqv a b

/-- Absolute value. -/
def abs : PF → PF
  | nan => nan
  | inf => inf
  | ninf => inf
  | num q => num |q|

/-- pandas `Series.clip(0, 1)`: `nan` stays `nan`, infinities saturate. -/
def clip01 : PF → PF
  | nan => nan
  | inf => num 1
  | ninf => num 0
  | num q => num (min 1 (max 0 q))

end PF

/-- Python's two-argument builtin `max(a, b)`: returns `b` if `b > a`, else
`a` — which makes it sensitive to `nan` position (`max(nan, x) = nan`,
`max(x, nan) = x`). -/
def pyMax (a b : PF) : PF := if PF.gt b a then b else a

/-- Binary max used when folding a rolling window (pandas `rolling().max()`
skip-`nan` semantics; callers guard out `nan`). -/
def pfMax2 (a b : PF) : PF := if PF.lt a b then b else a

/-- Binary min used when folding a rolling window. -/
def pfMin2 (a b : PF) : PF := if PF.lt b a then b else a

/-- Generic pandas rolling window with the default `min_periods = window`:
row `i` is `nan` when fewer than `w` rows precede it (inclusive) or when the
window contains a `nan`; otherwise `f` is applied to the trailing window. -/
def rollingApply (f : List PF → PF) (w : ℕ) (xs : List PF) : List PF :=
  (List.range xs.length).map (fun i =>
    if i + 1 < w then PF.nan
    else
      let win := (xs.take (i + 1)).drop (i + 1 - w)
      if win.any PF.isNan then PF.nan else f win)

/-- pandas `rolling(window=w).mean()`. -/
def rollingMean (w : ℕ) (xs : List PF) : List PF :=
  rollingApply (fun win => PF.div (win.foldl PF.add (PF.num 0)) (PF.num w)) w xs

/-- pandas `rolling(window=w).max()`. -/
def rollingMax (w : ℕ) (xs : List PF) : List PF :=
  rollingApply (fun win => win.foldl pfMax2 PF.ninf) w xs

/-- pandas `rolling(window=w).min()`. -/
def rollingMin (w : ℕ) (xs : List PF) : List PF :=
  rollingApply (fun win => win.foldl pfMin2 PF.inf) w xs

/-- pandas `Series.shift(k)`: the first `k` rows become `nan`. -/
def shiftK (k : ℕ) (xs : List PF) : List PF :=
  (List.range xs.length).map (fun i =>
    if i < k then PF.nan else xs.getD (i - k) PF.nan)

/-- pandas `Series.diff(k)`: `x[i] - x[i-k]`, `nan` for the first `k` rows. -/
def diffK (k : ℕ) (xs : List PF) : List PF :=
  (List.range xs.length).map (fun i =>
    if i < k then PF.nan else PF.sub (xs.getD i PF.nan) (xs.getD (i - k) PF.nan))

/-- Elementwise binary operation on two index-aligned pandas columns. -/
def zipW (f : PF → PF → PF) (xs ys : List PF) : List PF :=
  (List.range xs.length).map (fun i => f (xs.getD i PF.nan) (ys.getD i PF.nan))

/-- Scalar-times-column, e.g. `0.4 * data['trend_signal']`. -/
def scalMul (w : ℚ) (xs : List PF) : List PF :=
  xs.map (fun v => PF.mul (PF.num w) v)

/-- pandas `Series.fillna(q)`. -/
def fillnaQ (q : ℚ) (xs : List PF) : List PF :=
  xs.map (fun v => if v.isNan then PF.num q else v)

/-- pandas `ewm(span, adjust=False).mean()` value at index `i`:
`y[0] = x[0]`, `y[i] = (1-a)*y[i-1] + a*x[i]` with `a = 2/(span+1)`. -/
def ewmVal (a : ℚ) (xs : List PF) : ℕ → PF
  | 0 => xs.getD 0 PF.nan
  | i + 1 =>
      PF.add (PF.mul (PF.num (1 - a)) (ewmVal a xs i))
             (PF.mul (PF.num a) (xs.getD (i + 1) PF.nan))

/-- pandas `Series.ewm(span=s, adjust=False).mean()`. -/
def ewmMean (s : ℕ) (xs : List PF) : List PF :=
  (List.range xs.length).map (ewmVal (2 / ((s : ℚ) + 1)) xs)

/-- One weekly OHLCV price bar; the date is a calendar-day ordinal. -/
structure Bar where
  date : ℤ
  op : ℚ
  high : ℚ
  low : ℚ
  close : ℚ
  volume : ℚ
deriving DecidableEq

instance : Inhabited Bar := ⟨⟨0, 0, 0, 0, 0, 0⟩⟩

/-- Strategy configuration (`self.config`); fields mirror the keys of
`default_config` in `EnhancedSiegelStrategy.__init__`. -/
structure Config where
  ma_long : ℕ
  ma_short : ℕ
  rsi_period : ℕ
  macd_fast : ℕ
  macd_slow : ℕ
  macd_signal : ℕ
  adx_period : ℕ
  atr_period : ℕ
  atr_multiplier : ℚ
  signal_threshold : ℚ
  strong_signal : ℚ
  very_strong_signal : ℚ
  weak_signal : ℚ
  trend_weight : ℚ
  slope_weight : ℚ
  momentum_weight : ℚ
  environment_weight : ℚ
deriving DecidableEq

/-- The `default_config` dictionary of `EnhancedSiegelStrategy.__init__`. -/
def defaultConfig : Config where
  ma_long := 45
  ma_short := 20
  rsi_period := 14
  macd_fast := 12
  macd_slow := 26
  macd_signal := 9
  adx_period := 14
  atr_period := 14
  atr_multiplier := 5/2
  signal_threshold := 1/2
  strong_signal := 3/4
  very_strong_signal := 9/10
  weak_signal := 13/20
  trend_weight := 2/5
  slope_weight := 1/4
  momentum_weight := 1/5
  environment_weight := 3/20

/-! ## IndicatorEngine: `calculate_indicators` columns -/

/-- `df['close']` as a column of finite floats. -/
def closeCol (data : List Bar) : List PF :=
  data.map (fun b => PF.num b.close)

/-- `df['MA<ma_long>'] = df['close'].rolling(window=ma_long).mean()`. -/
def maLongCol (cfg : Config) (data : List Bar) : List PF :=
  rollingMean cfg.ma_long (closeCol data)

/-- `df['MA<ma_short>'] = df['close'].rolling(window=ma_short).mean()`. -/
def maShortCol (cfg : Config) (data : List Bar) : List PF :=
  rollingMean cfg.ma_short (closeCol data)

/-- `df['MA_slope'] = MA_short.diff(4) / MA_short.shift(4)`. -/
def maSlopeCol (cfg : Config) (data : List Bar) : List PF :=
  zipW PF.div (diffK 4 (maShortCol cfg data)) (shiftK 4 (maShortCol cfg data))

/-- `delta = df['close'].diff()`. -/
def deltaCol (data : List Bar) : List PF :=
  diffK 1 (closeCol data)

/-- `gain = delta.where(delta > 0, 0)` — note that the `nan` of row 0 also
fails `delta > 0`, hence becomes `0`, not `nan`. -/
def gainCol (data : List Bar) : List PF :=
  (deltaCol data).map (fun d => if PF.gt d (PF.num 0) then d else PF.num 0)

/-- `loss = -delta.where(delta < 0, 0)`. -/
def lossCol (data : List Bar) : List PF :=
  (deltaCol data).map (fun d => PF.neg (if PF.lt d (PF.num 0) then d else PF.num 0))

/-- `avg_gain = gain.rolling(window=rsi_period).mean()`. -/
def avgGainCol (cfg : Config) (data : List Bar) : List PF :=
  rollingMean cfg.rsi_period (gainCol data)

/-- `avg_loss = loss.rolling(window=rsi_period).mean()`. -/
def avgLossCol (cfg : Config) (data : List Bar) : List PF :=
  rollingMean cfg.rsi_period (lossCol data)

/-- `rs = avg_gain / avg_loss`. -/
def rsCol (cfg : Config) (data : List Bar) : List PF :=
  zipW PF.div (avgGainCol cfg data) (avgLossCol cfg data)

/-- `df['RSI'] = 100 - (100 / (1 + rs))`. -/
def rsiCol (cfg : Config) (data : List Bar) : List PF :=
  (rsCol cfg data).map (fun r =>
    PF.sub (PF.num 100) (PF.div (PF.num 100) (PF.add (PF.num 1) r)))

/-- `df['MACD'] = ema_fast - ema_slow` (EMAs of close, `adjust=False`). -/
def macdCol (cfg : Config) (data : List Bar) : List PF :=
  zipW PF.sub (ewmMean cfg.macd_fast (closeCol data))
              (ewmMean cfg.macd_slow (closeCol data))

/-- `df['MACD_signal'] = df['MACD'].ewm(span=macd_signal, adjust=False).mean()`. -/
def macdSignalCol (cfg : Config) (data : List Bar) : List PF :=
  ewmMean cfg.macd_signal (macdCol cfg data)

/-- `df['MACD_hist'] = df['MACD'] - df['MACD_signal']`. -/
def macdHistCol (cfg : Config) (data : List Bar) : List PF :=
  zipW PF.sub (macdCol cfg data) (macdSignalCol cfg data)

/-- `tr = concat([|high-low|, |high-prevClose|, |low-prevClose|]).max(axis=1)`;
the rowwise `max` skips `nan`, so row 0 (no previous close) is `|high-low|`. -/
def trCol (data : List Bar) : List PF :=
  (List.range data.length).map (fun i =>
    let b := data.getD i default
    if i = 0 then PF.num |b.high - b.low|
    else
      let pc := (data.getD (i - 1) default).close
      PF.num (max |b.high - b.low| (max |b.high - pc| |b.low - pc|)))

/-- `df['ATR'] = tr.rolling(window=atr_period).mean()`. -/
def atrCol (cfg : Config) (data : List Bar) : List PF :=
  rollingMean cfg.atr_period (trCol data)

/-- `df['ADX'] = abs(MA_short.diff(2)/MA_short.shift(2)*100)
                  .rolling(window=adx_period).mean()`. -/
def adxCol (cfg : Config) (data : List Bar) : List PF :=
  rollingMean cfg.adx_period
    ((zipW PF.div (diffK 2 (maShortCol cfg data)) (shiftK 2 (maShortCol cfg data))).map
      (fun x => PF.abs (PF.mul x (PF.num 100))))

/-- `df['Volatility'] = df['ATR'] / df['close'] * 100`. -/
def volatilityCol (cfg : Config) (data : List Bar) : List PF :=
  zipW (fun a c => PF.mul (PF.div a c) (PF.num 100)) (atrCol cfg data) (closeCol data)

/-! ## SignalComposer: `generate_signals` columns -/

/-- `data['trend_signal'] = np.where(close > MA_long, 1.0, 0.0)` — note that
`np.where` yields `0.0`, not `nan`, when `MA_long` is `nan` (the comparison
is `False`). -/
def trendSignalCol (cfg : Config) (data : List Bar) : List PF :=
  zipW (fun c m => if PF.gt c m then PF.num 1 else PF.num 0)
    (closeCol data) (maLongCol cfg data)

/-- `slope_signal = ((MA_slope - min52) / (max52 - min52)).clip(0, 1)`. -/
def slopeSignalCol (cfg : Config) (data : List Bar) : List PF :=
  (zipW PF.div
    (zipW PF.sub (maSlopeCol cfg data) (rollingMin 52 (maSlopeCol cfg data)))
    (zipW PF.sub (rollingMax 52 (maSlopeCol cfg data))
                 (rollingMin 52 (maSlopeCol cfg data)))).map PF.clip01

/-- `data['rsi_norm'] = data['RSI'] / 100`. -/
def rsiNormCol (cfg : Config) (data : List Bar) : List PF :=
  (rsiCol cfg data).map (fun r => PF.div r (PF.num 100))

/-- `macd_norm = ((MACD_hist - min52) / (max52 - min52)).clip(0, 1)`. -/
def macdNormCol (cfg : Config) (data : List Bar) : List PF :=
  (zipW PF.div
    (zipW PF.sub (macdHistCol cfg data) (rollingMin 52 (macdHistCol cfg data)))
    (zipW PF.sub (rollingMax 52 (macdHistCol cfg data))
                 (rollingMin 52 (macdHistCol cfg data)))).map PF.clip01

/-- `momentum_signal = 0.5 * rsi_norm + 0.5 * macd_norm`. -/
def momentumSignalCol (cfg : Config) (data : List Bar) : List PF :=
  zipW PF.add (scalMul (1/2) (rsiNormCol cfg data))
              (scalMul (1/2) (macdNormCol cfg data))

/-- `adx_norm = (ADX / 100).clip(0, 1)`. -/
def adxNormCol (cfg : Config) (data : List Bar) : List PF :=
  ((adxCol cfg data).map (fun a => PF.div a (PF.num 100))).map PF.clip01

/-- `vol_norm = (1 - (Volatility - min52) / (max52 - min52)).clip(0, 1)`. -/
def volNormCol (cfg : Config) (data : List Bar) : List PF :=
  ((zipW PF.div
    (zipW PF.sub (volatilityCol cfg data) (rollingMin 52 (volatilityCol cfg data)))
    (zipW PF.sub (rollingMax 52 (volatilityCol cfg data))
                 (rollingMin 52 (volatilityCol cfg data)))).map
      (fun x => PF.sub (PF.num 1) x)).map PF.clip01

/-- `environment_signal = 0.6 * adx_norm + 0.4 * vol_norm`. -/
def environmentSignalCol (cfg : Config) (data : List Bar) : List PF :=
  zipW PF.add (scalMul (3/5) (adxNormCol cfg data))
              (scalMul (2/5) (volNormCol cfg data))

/-- `composite_signal = trend_weight*trend + slope_weight*slope +
momentum_weight*momentum + environment_weight*environment`. -/
def compositeSignalCol (cfg : Config) (data : List Bar) : List PF :=
  zipW PF.add
    (zipW PF.add
      (zipW PF.add (scalMul cfg.trend_weight (trendSignalCol cfg data))
                   (scalMul cfg.slope_weight (slopeSignalCol cfg data)))
      (scalMul cfg.momentum_weight (momentumSignalCol cfg data)))
    (scalMul cfg.environment_weight (environmentSignalCol cfg data))

/-! ## PositionSizer and StopLossCalculator -/

/-- `EnhancedSiegelStrategy.calculate_position_size`: the top-down tier
cascade.  Every comparison against a `nan` signal is `false`, so a `nan`
composite signal falls through to the final `else` and returns `0.0`. -/
def calculate_position_size (cfg : Config) (signal_value : PF) : PF :=
  if PF.ge signal_value (PF.num cfg.very_strong_signal) then PF.num (14/10)
  else if PF.ge signal_value (PF.num cfg.strong_signal) then PF.num (12/10)
  else if PF.ge signal_value (PF.num cfg.signal_threshold) then
    (if PF.lt signal_value (PF.num cfg.weak_signal) then PF.num (8/10)
     else PF.num 1)
  else PF.num 0

/-- `df['position'] = df['composite_signal'].apply(calculate_position_size)`. -/
def positionCol (cfg : Config) (data : List Bar) : List PF :=
  (compositeSignalCol cfg data).map (calculate_position_size cfg)

/-- Body of `calculate_stop_loss`:
`max(close - ATR * atr_multiplier, MA_short)` with Python's builtin `max`. -/
def calculate_stop_loss (cfg : Config) (data : List Bar) (i : ℕ) : PF :=
  pyMax (PF.sub (PF.num ((data.getD i default).close))
                (PF.mul ((atrCol cfg data).getD i PF.nan) (PF.num cfg.atr_multiplier)))
        ((maShortCol cfg data).getD i PF.nan)

/-- The stop-loss loop of `run_strategy`: rows before the warm-up length
`max(ma_long, adx_period)` get `nan` unconditionally. -/
def stopLossCol (cfg : Config) (data : List Bar) : List PF :=
  (List.range data.length).map (fun i =>
    if i < max cfg.ma_long cfg.adx_period then PF.nan
    else calculate_stop_loss cfg data i)

/-! ## Enriched rows, `run_strategy` and `calculate_stats` -/

/-- One row of the enriched output frame (the columns the claims refer to). -/
structure Row where
  date : ℤ
  close : ℚ
  trend_signal : PF
  rsi : PF
  composite_signal : PF
  position : PF
  stop_loss : PF
deriving DecidableEq

instance : Inhabited Row :=
  ⟨⟨0, 0, PF.nan, PF.nan, PF.nan, PF.nan, PF.nan⟩⟩

/-- The statistics dictionary returned by `calculate_stats`. -/
structure Stats where
  total_return : PF
  annual_return : PF
  max_drawdown : PF
  sharpe_ratio : PF
  win_rate : PF
  trade_count : ℕ
  volatility : PF
deriving DecidableEq

instance : Inhabited Stats :=
  ⟨⟨PF.nan, PF.nan, PF.nan, PF.nan, PF.nan, 0, PF.nan⟩⟩

/-- Date comparison used by `sort_index()`. -/
def dateLe (a b : Bar) : Prop := a.date ≤ b.date

instance : DecidableRel dateLe := fun a b => inferInstanceAs (Decidable (a.date ≤ b.date))

instance : IsTotal Bar dateLe := ⟨fun a b => Int.le_total a.date b.date⟩

instance : IsTrans Bar dateLe := ⟨fun _ _ _ h1 h2 => le_trans h1 h2⟩

/-- `df = data.copy().sort_index()`. -/
def sortBars (data : List Bar) : List Bar :=
  List.insertionSort dateLe data

/-- The enriched frame built by `run_strategy` before statistics: the sorted
input with all indicator, signal, position and stop-loss columns attached
(pandas keeps every column aligned on the shared index). -/
def enrich (cfg : Config) (data : List Bar) : List Row :=
  let df := sortBars data
  (List.range df.length).map (fun i =>
    { date := (df.getD i default).date
      close := (df.getD i default).close
      trend_signal := (trendSignalCol cfg df).getD i PF.nan
      rsi := (rsiCol cfg df).getD i PF.nan
      composite_signal := (compositeSignalCol cfg df).getD i PF.nan
      position := (positionCol cfg df).getD i PF.nan
      stop_loss := (stopLossCol cfg df).getD i PF.nan })

/-- `clean_df = df.dropna(subset=['position'])`. -/
def cleanRows (rows : List Row) : List Row :=
  rows.filter (fun r => ¬ r.position.isNan)

/-- pandas `Series != 0` elementwise (`nan != 0` is `True`). -/
def pfNeZero (v : PF) : Bool :=
  match v with
  | PF.num q => decide (q ≠ 0)
  | _ => true

/-- `Series.pct_change()`: `x[i]/x[i-1] - 1`, `nan` at row 0. -/
def pctChange (xs : List PF) : List PF :=
  (List.range xs.length).map (fun i =>
    if i = 0 then PF.nan
    else PF.sub (PF.div (xs.getD i PF.nan) (xs.getD (i - 1) PF.nan)) (PF.num 1))

/-- `Series.cumprod()` with the pandas default `skipna=True`: a `nan` entry
stays `nan` in the output but does not poison the running product. -/
def cumprodSkipna (xs : List PF) : List PF :=
  (xs.foldl (fun (st : List PF × PF) x =>
    if x.isNan then (st.1 ++ [PF.nan], st.2)
    else
      let p := PF.mul st.2 x
      (st.1 ++ [p], p)) ([], PF.num 1)).1

/-- `Series.cummax()` (no `nan` present in its uses here after `fillna`). -/
def cummaxList (xs : List PF) : List PF :=
  (xs.foldl (fun (st : List PF × PF) x =>
    let m := pfMax2 st.2 x
    (st.1 ++ [m], m)) ([], PF.ninf)).1

/-- `Series.min()` with `skipna=True`: minimum of the non-`nan` entries,
`nan` when there are none. -/
def listMinSkipna (xs : List PF) : PF :=
  xs.foldl (fun acc x =>
    if x.isNan then acc
    else if acc.isNan then x
    else pfMin2 acc x) PF.nan

/-- `Series.mean()`: sum of entries divided by the count (`nan` on empty). -/
def pfMean (xs : List PF) : PF :=
  PF.div (xs.foldl PF.add (PF.num 0)) (PF.num xs.length)

/-- `Series.std()` (sample standard deviation, `ddof=1`): `nan` with fewer
than two observations, else the square root (abstracted by `sq`) of the
unbiased variance. -/
def pfStd (sq : PF → PF) (xs : List PF) : PF :=
  if xs.length < 2 then PF.nan
  else
    let m := pfMean xs
    sq (PF.div
      (xs.foldl (fun acc x => PF.add acc (PF.mul (PF.sub x m) (PF.sub x m))) (PF.num 0))
      (PF.num (xs.length - 1)))

/-- `EnhancedSiegelStrategy.calculate_stats`.  The two abstract parameters
stand for the transcendental float primitives the code calls: `pw b e`
models Python's `b ** e` and `sq` models `np.sqrt` / the square root inside
`Series.std`.  The only statements raising exceptions are
`clean_df.index[-1]` on an empty frame (IndexError) and `1 / total_years`
when the calendar span is zero (ZeroDivisionError); everything else only
produces (possibly `nan`) values. -/
def calculate_stats (pw : PF → ℚ → PF) (sq : PF → PF)
    (rows : List Row) : Except String Stats :=
  let clean := cleanRows rows
  let pos := clean.map Row.position
  let posChange := fillnaQ 0 (diffK 1 pos)
  let trades := ((clean.zip posChange).filter (fun x => pfNeZero x.2)).map Prod.fst
  let win_rate : PF :=
    if 1 < trades.length then
      let tClose := trades.map (fun r => PF.num r.close)
      let nextReturn := (List.range trades.length).map (fun i =>
        if i + 1 < trades.length then
          PF.sub (PF.div (tClose.getD (i + 1) PF.nan) (tClose.getD i PF.nan)) (PF.num 1)
        else PF.nan)
      let wins := ((trades.zip nextReturn).filter (fun x =>
        (PF.gt x.1.position (PF.num 0) && PF.gt x.2 (PF.num 0)) ||
        (PF.eqv x.1.position (PF.num 0) && PF.lt x.2 (PF.num 0)))).length
      PF.num ((wins : ℚ) / (trades.length : ℚ))
    else PF.nan
  let cleanClose := clean.map (fun r => PF.num r.close)
  let equityTerms := zipW (fun r p => PF.add (PF.num 1) (PF.mul r p))
    (pctChange cleanClose) (shiftK 1 pos)
  let equity := fillnaQ 1 (cumprodSkipna equityTerms)
  let peak := cummaxList equity
  let drawdown := zipW (fun e p => PF.sub (PF.div e p) (PF.num 1)) equity peak
  let max_drawdown := listMinSkipna drawdown
  if clean.isEmpty then Except.error "IndexError" else
  let total_days : ℤ := (clean.getLastD default).date - (clean.headD default).date
  let total_years : ℚ := (total_days : ℚ) / 365
  let total_return : PF := PF.sub (equity.getLastD PF.nan) (PF.num 1)
  if total_years = 0 then Except.error "ZeroDivisionError" else
  let annual_return : PF :=
    PF.sub (pw (PF.add (PF.num 1) total_return) (1 / total_years)) (PF.num 1)
  let daily := (pctChange equity).filter (fun v => ¬ v.isNan)
  let sharpe_ratio := PF.div (PF.mul (sq (PF.num 252)) (pfMean daily)) (pfStd sq daily)
  Except.ok
    { total_return := total_return
      annual_return := annual_return
      max_drawdown := max_drawdown
      sharpe_ratio := sharpe_ratio
      win_rate := win_rate
      trade_count := trades.length
      volatility := PF.mul (pfStd sq daily) (sq (PF.num 252)) }

/-- `EnhancedSiegelStrategy.run_strategy`: sort, enrich with indicators,
signals, positions and stop losses, then compute statistics; any exception
raised inside `calculate_stats` propagates out of `run_strategy`. -/
def run_strategy (pw : PF → ℚ → PF) (sq : PF → PF)
    (cfg : Config) (data : List Bar) : Except String (List Row × Stats) :=
  let rows := enrich cfg data
  (calculate_stats pw sq rows).map (fun s => (rows, s))

/-! ## Basic lemmas about the embedding -/

lemma getD_rangeMap {α : Type} (f : ℕ → α) (n i : ℕ) (d : α) :
    ((List.range n).map f).getD i d = if i < n then f i else d := by
  by_cases h : i < n
  · simp [List.getD_eq_getElem?_getD, List.getElem?_range h, h]
  · have hn : (List.range n)[i]? = none :=
      List.getElem?_eq_none (by simpa using le_of_not_lt h)
    simp [List.getD_eq_getElem?_getD, hn, h]

lemma getD_mem {α : Type} (l : List α) (n : ℕ) (d : α) (h : n < l.length) :
    l.getD n d ∈ l := by
  rw [List.getD_eq_getElem?_getD, List.getElem?_eq_getElem h]
  exact List.getElem_mem ..

lemma rangeMap_getD_map {α β : Type} (l : List α) (f : α → β) (d : α) :
    (List.range l.length).map (fun i => f (l.getD i d)) = l.map f := by
  apply List.ext_getElem
  · simp
  · intro i h1 h2
    simp only [List.getElem_map, List.getElem_range, List.length_range] at h1 ⊢
    rw [List.getD_eq_getElem?_getD, List.getElem?_eq_getElem (by simpa using h1)]
    rfl

namespace PF

lemma decide_or_eq_le (a b : ℚ) :
    (decide (b < a) || decide (a = b)) = decide (b ≤ a) := by
  rcases lt_trichotomy b a with h | h | h
  · simp [h, h.le]
  · subst h; simp
  · simp [lt_asymm h, h.ne, not_le.mpr h]

@[simp] lemma ge_num_num (a b : ℚ) : ge (num a) (num b) = decide (b ≤ a) := by
  show (lt (num b) (num a) || eqv (num a) (num b)) = decide (b ≤ a)
  simp only [lt, eqv]
  exact decide_or_eq_le a b

@[simp] lemma le_num_num (a b : ℚ) : le (num a) (num b) = decide (a ≤ b) := by
  show (lt (num a) (num b) || eqv (num a) (num b)) = decide (a ≤ b)
  simp only [lt, eqv]
  rw [show (decide (a = b)) = decide (b = a) by simp [eq_comm]]
  exact decide_or_eq_le b a

@[simp] lemma lt_num_num (a b : ℚ) : lt (num a) (num b) = decide (a < b) := rfl

@[simp] lemma gt_num_num (a b : ℚ) : gt (num a) (num b) = decide (b < a) := rfl

@[simp] lemma ge_nan_left (b : PF) : ge nan b = false := by
  cases b <;> rfl

@[simp] lemma gt_nan_left (b : PF) : gt nan b = false := by
  cases b <;> rfl

@[simp] lemma lt_nan_left (b : PF) : lt nan b = false := by cases b <;> rfl

@[simp] lemma lt_nan_right (a : PF) : lt a nan = false := by
  cases a <;> rfl

@[simp] lemma isNan_nan : isNan nan = true := rfl

@[simp] lemma isNan_num (q : ℚ) : isNan (num q) = false := rfl

@[simp] lemma add_num_num (a b : ℚ) : add (num a) (num b) = num (a + b) := rfl

@[simp] lemma sub_num_num (a b : ℚ) : sub (num a) (num b) = num (a - b) := by
  show add (num a) (num (-b)) = num (a - b)
  rw [add_num_num]; ring_nf

@[simp] lemma mul_num_num (a b : ℚ) : mul (num a) (num b) = num (a * b) := rfl

@[simp] lemma add_nan_left (b : PF) : add nan b = nan := by cases b <;> rfl

@[simp] lemma add_nan_right (a : PF) : add a nan = nan := by cases a <;> rfl

@[simp] lemma sub_nan_right (a : PF) : sub a nan = nan := by cases a <;> rfl

@[simp] lemma div_nan_right (a : PF) : div a nan = nan := by cases a <;> rfl

@[simp] lemma div_nan_left (b : PF) : div nan b = nan := by cases b <;> rfl

lemma div_num_zero (a : ℚ) :
    div (num a) (num 0) = if 0 < a then inf else if a < 0 then ninf else nan := by
  simp [div]

@[simp] lemma add_num_inf (a : ℚ) : add (num a) inf = inf := rfl

@[simp] lemma add_num_ninf (a : ℚ) : add (num a) ninf = ninf := rfl

@[simp] lemma div_num_inf (a : ℚ) : div (num a) inf = num 0 := rfl

@[simp] lemma div_num_ninf (a : ℚ) : div (num a) ninf = num 0 := rfl

end PF

/-- Python's `max` agrees with the mathematical `max` on finite values. -/
lemma pyMax_num_num (a b : ℚ) : pyMax (PF.num a) (PF.num b) = PF.num (max a b) := by
  simp only [pyMax, PF.gt_num_num]
  by_cases h : a < b
  · simp [h, max_eq_right h.le]
  · simp [h, max_eq_left (le_of_not_lt h)]

@[simp] lemma length_rollingApply (f : List PF → PF) (w : ℕ) (xs : List PF) :
    (rollingApply f w xs).length = xs.length := by simp [rollingApply]

@[simp] lemma length_rollingMean (w : ℕ) (xs : List PF) :
    (rollingMean w xs).length = xs.length := by simp [rollingMean]

@[simp] lemma length_rollingMax (w : ℕ) (xs : List PF) :
    (rollingMax w xs).length = xs.length := by simp [rollingMax]

@[simp] lemma length_rollingMin (w : ℕ) (xs : List PF) :
    (rollingMin w xs).length = xs.length := by simp [rollingMin]

@[simp] lemma length_shiftK (k : ℕ) (xs : List PF) :
    (shiftK k xs).length = xs.length := by simp [shiftK]

@[simp] lemma length_diffK (k : ℕ) (xs : List PF) :
    (diffK k xs).length = xs.length := by simp [diffK]

@[simp] lemma length_zipW (f : PF → PF → PF) (xs ys : List PF) :
    (zipW f xs ys).length = xs.length := by simp [zipW]

@[simp] lemma length_scalMul (w : ℚ) (xs : List PF) :
    (scalMul w xs).length = xs.length := by simp [scalMul]

@[simp] lemma length_fillnaQ (q : ℚ) (xs : List PF) :
    (fillnaQ q xs).length = xs.length := by simp [fillnaQ]

@[simp] lemma length_ewmMean (s : ℕ) (xs : List PF) :
    (ewmMean s xs).length = xs.length := by simp [ewmMean]

@[simp] lemma length_closeCol (data : List Bar) :
    (closeCol data).length = data.length := by simp [closeCol]

@[simp] lemma length_maLongCol (cfg : Config) (data : List Bar) :
    (maLongCol cfg data).length = data.length := by simp [maLongCol]

@[simp] lemma length_maShortCol (cfg : Config) (data : List Bar) :
    (maShortCol cfg data).length = data.length := by simp [maShortCol]

@[simp] lemma length_maSlopeCol (cfg : Config) (data : List Bar) :
    (maSlopeCol cfg data).length = data.length := by simp [maSlopeCol]

@[simp] lemma length_deltaCol (data : List Bar) :
    (deltaCol data).length = data.length := by simp [deltaCol]

@[simp] lemma length_gainCol (data : List Bar) :
    (gainCol data).length = data.length := by simp [gainCol]

@[simp] lemma length_lossCol (data : List Bar) :
    (lossCol data).length = data.length := by simp [lossCol]

@[simp] lemma length_avgGainCol (cfg : Config) (data : List Bar) :
    (avgGainCol cfg data).length = data.length := by simp [avgGainCol]

@[simp] lemma length_avgLossCol (cfg : Config) (data : List Bar) :
    (avgLossCol cfg data).length = data.length := by simp [avgLossCol]

@[simp] lemma length_rsCol (cfg : Config) (data : List Bar) :
    (rsCol cfg data).length = data.length := by simp [rsCol]

@[simp] lemma length_rsiCol (cfg : Config) (data : List Bar) :
    (rsiCol cfg data).length = data.length := by simp [rsiCol]

@[simp] lemma length_macdCol (cfg : Config) (data : List Bar) :
    (macdCol cfg data).length = data.length := by simp [macdCol]

@[simp] lemma length_macdHistCol (cfg : Config) (data : List Bar) :
    (macdHistCol cfg data).length = data.length := by simp [macdHistCol]

@[simp] lemma length_trCol (data : List Bar) :
    (trCol data).length = data.length := by simp [trCol]

@[simp] lemma length_atrCol (cfg : Config) (data : List Bar) :
    (atrCol cfg data).length = data.length := by simp [atrCol]

@[simp] lemma length_adxCol (cfg : Config) (data : List Bar) :
    (adxCol cfg data).length = data.length := by simp [adxCol]

@[simp] lemma length_volatilityCol (cfg : Config) (data : List Bar) :
    (volatilityCol cfg data).length = data.length := by simp [volatilityCol]

@[simp] lemma length_trendSignalCol (cfg : Config) (data : List Bar) :
    (trendSignalCol cfg data).length = data.length := by simp [trendSignalCol]

@[simp] lemma length_slopeSignalCol (cfg : Config) (data : List Bar) :
    (slopeSignalCol cfg data).length = data.length := by simp [slopeSignalCol]

@[simp] lemma length_rsiNormCol (cfg : Config) (data : List Bar) :
    (rsiNormCol cfg data).length = data.length := by simp [rsiNormCol]

@[simp] lemma length_macdNormCol (cfg : Config) (data : List Bar) :
    (macdNormCol cfg data).length = data.length := by simp [macdNormCol]

@[simp] lemma length_momentumSignalCol (cfg : Config) (data : List Bar) :
    (momentumSignalCol cfg data).length = data.length := by simp [momentumSignalCol]

@[simp] lemma length_compositeSignalCol (cfg : Config) (data : List Bar) :
    (compositeSignalCol cfg data).length = data.length := by simp [compositeSignalCol]

@[simp] lemma length_positionCol (cfg : Config) (data : List Bar) :
    (positionCol cfg data).length = data.length := by simp [positionCol]

@[simp] lemma length_stopLossCol (cfg : Config) (data : List Bar) :
    (stopLossCol cfg data).length = data.length := by simp [stopLossCol]

@[simp] lemma length_sortBars (data : List Bar) :
    (sortBars data).length = data.length :=
  (List.perm_insertionSort dateLe data).length_eq

@[simp] lemma length_enrich (cfg : Config) (data : List Bar) :
    (enrich cfg data).length = data.length := by simp [enrich]

/-! ## PositionSizer facts shared between claims -/

/-- The §4.3 tier table of the spec, written exactly with its top-down
nested structure, for defined composite values. -/
def specPositionSize (s : ℚ) : ℚ :=
  if 9/10 ≤ s then 14/10
  else if 3/4 ≤ s then 12/10
  else if 1/2 ≤ s then (if s < 13/20 then 8/10 else 1)
  else 0

lemma cps_default_eq (s : ℚ) :
    calculate_position_size defaultConfig (PF.num s) = PF.num (specPositionSize s) := by
  simp only [calculate_position_size, specPositionSize, defaultConfig, PF.ge_num_num,
    PF.lt_num_num, decide_eq_true_eq]
  split_ifs <;> rfl

/-- Whatever the input — finite, infinite or `nan` — the tier cascade
returns one of the five literal tiers. -/
lemma cps_mem_tiers (cfg : Config) (s : PF) :
    calculate_position_size cfg s = PF.num 0 ∨
    calculate_position_size cfg s = PF.num (8/10) ∨
    calculate_position_size cfg s = PF.num 1 ∨
    calculate_position_size cfg s = PF.num (12/10) ∨
    calculate_position_size cfg s = PF.num (14/10) := by
  simp only [calculate_position_size]
  split_ifs <;> tauto

/-- A `nan` signal fails every threshold comparison and lands in the
`else` branch. -/
lemma cps_nan (cfg : Config) :
    calculate_position_size cfg PF.nan = PF.num 0 := by
  simp [calculate_position_size]

lemma getD_map_of_lt {α β : Type} (f : α → β) (xs : List α) (i : ℕ)
    (h : i < xs.length) (d : β) (e : α) :
    (xs.map f).getD i d = f (xs.getD i e) := by
  rw [List.getD_eq_getElem?_getD, List.getElem?_map, List.getElem?_eq_getElem h,
    List.getD_eq_getElem?_getD, List.getElem?_eq_getElem h]
  rfl

lemma positionCol_getD (cfg : Config) (data : List Bar) (i : ℕ)
    (h : i < data.length) :
    (positionCol cfg data).getD i PF.nan =
      calculate_position_size cfg ((compositeSignalCol cfg data).getD i PF.nan) := by
  have hlen : i < (compositeSignalCol cfg data).length := by simp [h]
  simp only [positionCol]
  exact getD_map_of_lt _ _ i hlen _ _

lemma enrich_getD (cfg : Config) (data : List Bar) (i : ℕ) (h : i < data.length) :
    (enrich cfg data).getD i default =
      { date := ((sortBars data).getD i default).date
        close := ((sortBars data).getD i default).close
        trend_signal := (trendSignalCol cfg (sortBars data)).getD i PF.nan
        rsi := (rsiCol cfg (sortBars data)).getD i PF.nan
        composite_signal := (compositeSignalCol cfg (sortBars data)).getD i PF.nan
        position := (positionCol cfg (sortBars data)).getD i PF.nan
        stop_loss := (stopLossCol cfg (sortBars data)).getD i PF.nan } := by
  simp only [enrich]
  rw [getD_rangeMap]
  simp [h]

/-! ## Claim theorems -/

/-- C1: `calculate_position_size` realises the §4.3 top-down nested tier
table for every defined composite signal value, with the exact boundary
semantics: 0.9 ↦ 1.4, 0.89999 ↦ 1.2, 0.75 ↦ 1.2, 0.74999 ↦ 1.0,
0.65 ↦ 1.0, 0.64999 ↦ 0.8, and 0.5 lands in the 0.8 tier through the
nested weak-signal sub-case. -/
theorem claim_C1 :
    (∀ s : ℚ, calculate_position_size defaultConfig (PF.num s) =
      PF.num (specPositionSize s)) ∧
    calculate_position_size defaultConfig (PF.num (9/10)) = PF.num (14/10) ∧
    calculate_position_size defaultConfig (PF.num (89999/100000)) = PF.num (12/10) ∧
    calculate_position_size defaultConfig (PF.num (3/4)) = PF.num (12/10) ∧
    calculate_position_size defaultConfig (PF.num (74999/100000)) = PF.num 1 ∧
    calculate_position_size defaultConfig (PF.num (13/20)) = PF.num 1 ∧
    calculate_position_size defaultConfig (PF.num (64999/100000)) = PF.num (8/10) ∧
    calculate_position_size defaultConfig (PF.num (1/2)) = PF.num (8/10) :=
  ⟨cps_default_eq, by rw [cps_default_eq]; norm_num [specPositionSize],
    by rw [cps_default_eq]; norm_num [specPositionSize],
    by rw [cps_default_eq]; norm_num [specPositionSize],
    by rw [cps_default_eq]; norm_num [specPositionSize],
    by rw [cps_default_eq]; norm_num [specPositionSize],
    by rw [cps_default_eq]; norm_num [specPositionSize],
    by rw [cps_default_eq]; norm_num [specPositionSize]⟩

/-- C8: position sizing is monotone in the composite signal — for defined
signal values `s1 ≤ s2`, the resulting position tiers compare the same way. -/
theorem claim_C8 (s1 s2 : ℚ) (h : s1 ≤ s2) :
    PF.le (calculate_position_size defaultConfig (PF.num s1))
          (calculate_position_size defaultConfig (PF.num s2)) = true := by
  rw [cps_default_eq, cps_default_eq, PF.le_num_num, decide_eq_true_eq]
  simp only [specPositionSize]
  split_ifs <;> linarith

/-- Witness for C8 at the concrete pair 0.3 ≤ 0.95. -/
theorem claim_C8_witness :
    (3:ℚ)/10 ≤ 19/20 ∧
    PF.le (calculate_position_size defaultConfig (PF.num (3/10)))
          (calculate_position_size defaultConfig (PF.num (19/20))) = true :=
  ⟨by norm_num, claim_C8 (3/10) (19/20) (by norm_num)⟩

/-- C10: the computed position is always one of the five tier literals and
never `nan` — `calculate_position_size` is total, a `nan` composite signal
maps to the 0.0 tier because every threshold comparison against `nan` is
false — and therefore `calculate_stats`'s `dropna(subset=['position'])`
never removes a row from the enriched frame. -/
theorem claim_C10 (cfg : Config) (data : List Bar) :
    (∀ s, calculate_position_size cfg s = PF.num 0 ∨
      calculate_position_size cfg s = PF.num (8/10) ∨
      calculate_position_size cfg s = PF.num 1 ∨
      calculate_position_size cfg s = PF.num (12/10) ∨
      calculate_position_size cfg s = PF.num (14/10)) ∧
    calculate_position_size cfg PF.nan = PF.num 0 ∧
    (∀ r, r ∈ enrich cfg data →
      (r.position = PF.num 0 ∨ r.position = PF.num (8/10) ∨
       r.position = PF.num 1 ∨ r.position = PF.num (12/10) ∨
       r.position = PF.num (14/10))) ∧
    cleanRows (enrich cfg data) = enrich cfg data := by
  have hmem : ∀ r ∈ enrich cfg data,
      (r.position = PF.num 0 ∨ r.position = PF.num (8/10) ∨
       r.position = PF.num 1 ∨ r.position = PF.num (12/10) ∨
       r.position = PF.num (14/10)) := by
    intro r hr
    simp only [enrich, List.mem_map, List.mem_range] at hr
    obtain ⟨i, hi, rfl⟩ := hr
    have hi2 : i < data.length := by simpa using hi
    simp only
    rw [positionCol_getD cfg (sortBars data) i (by simpa using hi)]
    exact cps_mem_tiers cfg _
  refine ⟨cps_mem_tiers cfg, cps_nan cfg, hmem, ?_⟩
  refine List.filter_eq_self.mpr ?_
  intro r hr
  rcases hmem r hr with h | h | h | h | h <;> simp [h]

/-! ## Concrete example inputs used by counterexamples and witnesses -/

/-- A bar whose four prices all equal `c`. -/
def flatBar (d : ℤ) (c : ℚ) : Bar :=
  { date := d, op := c, high := c, low := c, close := c, volume := 1 }

/-- A single-bar series. -/
def oneBar : List Bar := [flatBar 0 1]

/-- Three weekly bars with strictly rising close 1, 2, 3. -/
def threeBars : List Bar := [flatBar 0 1, flatBar 7 2, flatBar 14 3]

/-- Three weekly bars with constant close 5. -/
def constBars : List Bar := [flatBar 0 5, flatBar 7 5, flatBar 14 5]

/-- A small test configuration (short windows) so the indicator warm-ups are
reached within three bars. -/
def cfgW : Config :=
  { defaultConfig with
    ma_long := 2
    ma_short := 1
    rsi_period := 2
    adx_period := 1
    atr_period := 1 }

lemma oneBar_composite_nan :
    ((enrich defaultConfig oneBar).getD 0 default).composite_signal = PF.nan := by
  norm_num [sortBars, defaultConfig, cfgW, oneBar, threeBars, constBars, flatBar, enrich, compositeSignalCol, trendSignalCol, slopeSignalCol, momentumSignalCol, environmentSignalCol, rsiNormCol, macdNormCol, adxNormCol, volNormCol, rsiCol, rsCol, avgGainCol, avgLossCol, gainCol, lossCol, deltaCol, closeCol, maLongCol, maShortCol, maSlopeCol, macdCol, macdSignalCol, macdHistCol, trCol, atrCol, adxCol, volatilityCol, positionCol, stopLossCol, calculate_position_size, calculate_stop_loss, rollingApply, rollingMean, rollingMax, rollingMin, shiftK, diffK, zipW, scalMul, fillnaQ, ewmVal, ewmMean, pyMax, pfMax2, pfMin2, PF.add, PF.mul, PF.div, PF.sub, PF.neg, PF.lt, PF.gt, PF.ge, PF.eqv, PF.abs, PF.clip01, PF.isNan, List.range_succ]

/-- C2 counterexample: on a one-bar series the composite signal of row 0 is
undefined (`nan`), yet the derived position is the defined value 0.0, not
`nan` — refuting "undefined input produces undefined output". -/
theorem claim_C2_counterexample :
    ((enrich defaultConfig oneBar).getD 0 default).composite_signal = PF.nan ∧
    ((enrich defaultConfig oneBar).getD 0 default).position = PF.num 0 ∧
    ¬ ((enrich defaultConfig oneBar).getD 0 default).position = PF.nan := by
  have hpos : ((enrich defaultConfig oneBar).getD 0 default).position = PF.num 0 := by
    rw [enrich_getD defaultConfig oneBar 0 (by norm_num [oneBar])]
    dsimp only
    rw [positionCol_getD defaultConfig (sortBars oneBar) 0 (by norm_num [oneBar]),
      show (compositeSignalCol defaultConfig (sortBars oneBar)).getD 0 PF.nan = PF.nan from ?h]
    · exact cps_nan defaultConfig
    case h =>
      have h2 := oneBar_composite_nan
      rw [enrich_getD defaultConfig oneBar 0 (by norm_num [oneBar])] at h2
      exact h2
  exact ⟨oneBar_composite_nan, hpos, by rw [hpos]; simp⟩

/-- C2 (amended): for every row whose composite_signal is undefined, the
derived position is the defined value 0.0 (the no-signal tier), because every
threshold comparison against `nan` is false; it is never undefined. -/
theorem claim_C2 (cfg : Config) (data : List Bar) (i : ℕ)
    (h : i < data.length)
    (hc : ((enrich cfg data).getD i default).composite_signal = PF.nan) :
    ((enrich cfg data).getD i default).position = PF.num 0 := by
  rw [enrich_getD cfg data i h] at hc ⊢
  dsimp only at hc ⊢
  rw [positionCol_getD cfg (sortBars data) i (by simp [h]), hc]
  exact cps_nan cfg

/-- Witness for C2 (amended) at row 0 of the one-bar series. -/
theorem claim_C2_witness :
    0 < oneBar.length ∧
    ((enrich defaultConfig oneBar).getD 0 default).composite_signal = PF.nan ∧
    ((enrich defaultConfig oneBar).getD 0 default).position = PF.num 0 :=
  ⟨by norm_num [oneBar], oneBar_composite_nan,
    claim_C2 defaultConfig oneBar 0 (by norm_num [oneBar]) oneBar_composite_nan⟩

lemma trendSignalCol_getD (cfg : Config) (data : List Bar) (i : ℕ)
    (h : i < data.length) :
    (trendSignalCol cfg data).getD i PF.nan =
      (if PF.gt ((closeCol data).getD i PF.nan) ((maLongCol cfg data).getD i PF.nan)
       then PF.num 1 else PF.num 0) := by
  simp only [trendSignalCol, zipW]
  rw [getD_rangeMap]
  simp [h]

/-- C4 (amended): trend_signal is 1.0 when close > long MA and 0.0 in every
other case — including the case of an undefined long MA, where the `np.where`
comparison is false and the value is 0.0, not a propagated `nan`; it is
always exactly 0.0 or 1.0, never intermediate and never undefined. -/
theorem claim_C4 (cfg : Config) (data : List Bar) (i : ℕ) (h : i < data.length) :
    ((trendSignalCol cfg data).getD i PF.nan = PF.num 0 ∨
     (trendSignalCol cfg data).getD i PF.nan = PF.num 1) ∧
    ((maLongCol cfg data).getD i PF.nan = PF.nan →
      (trendSignalCol cfg data).getD i PF.nan = PF.num 0) ∧
    (∀ q c, (maLongCol cfg data).getD i PF.nan = PF.num q →
      (closeCol data).getD i PF.nan = PF.num c →
      ((q < c → (trendSignalCol cfg data).getD i PF.nan = PF.num 1) ∧
       (c ≤ q → (trendSignalCol cfg data).getD i PF.nan = PF.num 0))) := by
  rw [trendSignalCol_getD cfg data i h]
  refine ⟨?_, ?_, ?_⟩
  · split_ifs <;> simp
  · intro hm
    rw [hm]
    simp [PF.gt]
  · intro q c hm hc
    rw [hm, hc]
    constructor
    · intro hlt
      simp [PF.gt_num_num, hlt]
    · intro hle
      simp [PF.gt_num_num, not_lt.mpr hle]

/-- C4 counterexample: on a one-bar series the long MA of row 0 is undefined,
but trend_signal is the defined value 0.0 rather than a propagated `nan`. -/
theorem claim_C4_counterexample :
    (maLongCol defaultConfig oneBar).getD 0 PF.nan = PF.nan ∧
    (trendSignalCol defaultConfig oneBar).getD 0 PF.nan = PF.num 0 ∧
    ¬ (trendSignalCol defaultConfig oneBar).getD 0 PF.nan = PF.nan := by
  have h1 : (maLongCol defaultConfig oneBar).getD 0 PF.nan = PF.nan := by
    norm_num [sortBars, defaultConfig, cfgW, oneBar, threeBars, constBars, flatBar, closeCol, maLongCol, maShortCol, trendSignalCol, rollingApply, rollingMean, zipW, PF.add, PF.div, PF.lt, PF.gt, PF.isNan, List.range_succ]
  have h2 : (trendSignalCol defaultConfig oneBar).getD 0 PF.nan = PF.num 0 := by
    norm_num [sortBars, defaultConfig, cfgW, oneBar, threeBars, constBars, flatBar, closeCol, maLongCol, maShortCol, trendSignalCol, rollingApply, rollingMean, zipW, PF.add, PF.div, PF.lt, PF.gt, PF.isNan, List.range_succ]
  exact ⟨h1, h2, by rw [h2]; simp⟩

/-- Witness for C4 (amended): row 0 of the one-bar series has an undefined
long MA and trend_signal 0.0; row 2 of the rising three-bar series has
long MA 5/2 < close 3 and trend_signal 1.0. -/
theorem claim_C4_witness :
    (trendSignalCol defaultConfig oneBar).getD 0 PF.nan = PF.num 0 ∧
    (trendSignalCol cfgW threeBars).getD 2 PF.nan = PF.num 1 :=
  ⟨(claim_C4 defaultConfig oneBar 0 (by norm_num [oneBar])).2.1 (by norm_num [sortBars, defaultConfig, cfgW, oneBar, threeBars, constBars, flatBar, closeCol, maLongCol, maShortCol, trendSignalCol, rollingApply, rollingMean, zipW, PF.add, PF.div, PF.lt, PF.gt, PF.isNan, List.range_succ]),
   ((claim_C4 cfgW threeBars 2 (by norm_num [threeBars])).2.2 (5/2) 3
      (by norm_num [sortBars, defaultConfig, cfgW, oneBar, threeBars, constBars, flatBar, closeCol, maLongCol, maShortCol, trendSignalCol, rollingApply, rollingMean, zipW, PF.add, PF.div, PF.lt, PF.gt, PF.isNan, List.range_succ]) (by norm_num [sortBars, defaultConfig, cfgW, oneBar, threeBars, constBars, flatBar, closeCol, maLongCol, maShortCol, trendSignalCol, rollingApply, rollingMean, zipW, PF.add, PF.div, PF.lt, PF.gt, PF.isNan, List.range_succ])).1 (by norm_num)⟩

lemma stopLossCol_getD (cfg : Config) (data : List Bar) (i : ℕ) :
    (stopLossCol cfg data).getD i PF.nan =
      (if i < data.length then
        (if i < max cfg.ma_long cfg.adx_period then PF.nan
         else calculate_stop_loss cfg data i)
       else PF.nan) := by
  simp only [stopLossCol]
  rw [getD_rangeMap]

/-- C5: rows before the warm-up length `max(ma_long, adx_period)` have an
undefined stop_loss regardless of indicator availability; from the warm-up
row on, whenever the ATR-like value and the short MA are defined, the stop
is `max(close − atr_multiplier × ATR, short_MA)`. -/
theorem claim_C5 (cfg : Config) (data : List Bar) (i : ℕ) :
    (i < data.length → i < max cfg.ma_long cfg.adx_period →
      (stopLossCol cfg data).getD i PF.nan = PF.nan) ∧
    (∀ a m, max cfg.ma_long cfg.adx_period ≤ i → i < data.length →
      (atrCol cfg data).getD i PF.nan = PF.num a →
      (maShortCol cfg data).getD i PF.nan = PF.num m →
      (stopLossCol cfg data).getD i PF.nan =
        PF.num (max ((data.getD i default).close - cfg.atr_multiplier * a) m)) := by
  constructor
  · intro h1 h2
    rw [stopLossCol_getD]
    simp [h1, h2]
  · intro a m hw h1 ha hm
    rw [stopLossCol_getD, if_pos h1, if_neg (not_lt.mpr hw)]
    simp only [calculate_stop_loss]
    rw [ha, hm, PF.mul_num_num, PF.sub_num_num, pyMax_num_num, mul_comm a cfg.atr_multiplier]

/-- Witness for C5 with the short-window configuration on the rising
three-bar series: warm-up is max(2,1) = 2, so row 0 is undefined and row 2
gets max(3 − 2.5·1, 3) = 3. -/
theorem claim_C5_witness :
    (stopLossCol cfgW threeBars).getD 0 PF.nan = PF.nan ∧
    (stopLossCol cfgW threeBars).getD 2 PF.nan = PF.num 3 := by
  constructor
  · exact (claim_C5 cfgW threeBars 0).1 (by norm_num [threeBars])
      (by norm_num [cfgW, defaultConfig])
  · rw [(claim_C5 cfgW threeBars 2).2 1 3 (by norm_num [cfgW, defaultConfig])
      (by norm_num [threeBars]) (by norm_num [sortBars, defaultConfig, cfgW, threeBars, flatBar, closeCol, maShortCol, trCol, atrCol, rollingApply, rollingMean, PF.add, PF.div, PF.isNan, List.range_succ]) (by norm_num [sortBars, defaultConfig, cfgW, threeBars, flatBar, closeCol, maShortCol, trCol, atrCol, rollingApply, rollingMean, PF.add, PF.div, PF.isNan, List.range_succ])]
    congr 1
    norm_num [threeBars, flatBar, cfgW, defaultConfig, max_def]

lemma getD_of_length_le {α : Type} (l : List α) (n : ℕ) (d : α)
    (h : l.length ≤ n) : l.getD n d = d := by
  rw [List.getD_eq_getElem?_getD, List.getElem?_eq_none h]
  rfl

lemma foldl_add_zeroList : ∀ (l : List PF), (∀ x ∈ l, x = PF.num 0) →
    l.foldl PF.add (PF.num 0) = PF.num 0
  | [], _ => rfl
  | x :: rest, h => by
    have hx := h x (List.mem_cons_self ..)
    rw [List.foldl_cons, hx, PF.add_num_num]
    rw [show (0 : ℚ) + 0 = 0 by norm_num]
    exact foldl_add_zeroList rest (fun y hy => h y (List.mem_cons_of_mem _ hy))

lemma rollingMean_allZero (w : ℕ) (xs : List PF)
    (hx : ∀ x ∈ xs, x = PF.num 0) (i : ℕ) (hi : i < xs.length) :
    (rollingMean w xs).getD i PF.nan =
      (if i + 1 < w then PF.nan else PF.div (PF.num 0) (PF.num w)) := by
  simp only [rollingMean, rollingApply]
  rw [getD_rangeMap]
  simp only [hi, if_true]
  by_cases hw : i + 1 < w
  · simp [hw]
  · have hwin : ∀ x ∈ (xs.take (i + 1)).drop (i + 1 - w), x = PF.num 0 := fun x hx2 =>
      hx x (List.mem_of_mem_take (List.mem_of_mem_drop hx2))
    have hany : ((xs.take (i + 1)).drop (i + 1 - w)).any PF.isNan = false := by
      rw [List.any_eq_false]
      intro x hx2
      rw [hwin x hx2]
      simp
    simp only [hw, if_false, hany, Bool.false_eq_true]
    rw [foldl_add_zeroList _ hwin]

lemma rsCol_getD (cfg : Config) (data : List Bar) (i : ℕ) (hi : i < data.length) :
    (rsCol cfg data).getD i PF.nan =
      PF.div ((avgGainCol cfg data).getD i PF.nan) ((avgLossCol cfg data).getD i PF.nan) := by
  simp only [rsCol, zipW]
  rw [getD_rangeMap]
  simp [hi]

lemma rsiCol_getD (cfg : Config) (data : List Bar) (i : ℕ) (hi : i < data.length) :
    (rsiCol cfg data).getD i PF.nan =
      PF.sub (PF.num 100)
        (PF.div (PF.num 100) (PF.add (PF.num 1) ((rsCol cfg data).getD i PF.nan))) := by
  simp only [rsiCol]
  exact getD_map_of_lt _ _ i (by simp [hi]) _ PF.nan

lemma closeCol_getD (data : List Bar) (i : ℕ) (hi : i < data.length) :
    (closeCol data).getD i PF.nan = PF.num ((data.getD i default).close) := by
  simp only [closeCol]
  exact getD_map_of_lt _ _ i hi _ default

lemma gainCol_const (data : List Bar) (c : ℚ) (hc : ∀ b ∈ data, b.close = c) :
    ∀ x ∈ gainCol data, x = PF.num 0 := by
  intro x hx
  simp only [gainCol, List.mem_map] at hx
  obtain ⟨d, hd, rfl⟩ := hx
  simp only [deltaCol, diffK, List.mem_map, List.mem_range] at hd
  obtain ⟨j, hj, rfl⟩ := hd
  have hj2 : j < data.length := by simpa using hj
  by_cases hj0 : j < 1
  · simp [hj0, PF.gt]
  · have hcj : (closeCol data).getD j PF.nan = PF.num c := by
      rw [closeCol_getD data j hj2]
      rw [hc _ (getD_mem data j default hj2)]
    have hcj1 : (closeCol data).getD (j - 1) PF.nan = PF.num c := by
      rw [closeCol_getD data (j - 1) (by omega)]
      rw [hc _ (getD_mem data (j - 1) default (by omega))]
    simp only [hj0, if_false, hcj, hcj1, PF.sub_num_num, sub_self]
    simp [PF.gt]

lemma lossCol_const (data : List Bar) (c : ℚ) (hc : ∀ b ∈ data, b.close = c) :
    ∀ x ∈ lossCol data, x = PF.num 0 := by
  intro x hx
  simp only [lossCol, List.mem_map] at hx
  obtain ⟨d, hd, rfl⟩ := hx
  simp only [deltaCol, diffK, List.mem_map, List.mem_range] at hd
  obtain ⟨j, hj, rfl⟩ := hd
  have hj2 : j < data.length := by simpa using hj
  by_cases hj0 : j < 1
  · simp [hj0, PF.lt, PF.neg]
  · have hcj : (closeCol data).getD j PF.nan = PF.num c := by
      rw [closeCol_getD data j hj2]
      rw [hc _ (getD_mem data j default hj2)]
    have hcj1 : (closeCol data).getD (j - 1) PF.nan = PF.num c := by
      rw [closeCol_getD data (j - 1) (by omega)]
      rw [hc _ (getD_mem data (j - 1) default (by omega))]
    simp only [hj0, if_false, hcj, hcj1, PF.sub_num_num, sub_self]
    simp [PF.lt, PF.neg]

/-- C3 (amended): when the trailing average loss over rsi_period bars is
zero, the RSI is undefined only if the average gain is also zero (RS = 0/0);
with a positive average gain RS is +infinity and the RSI evaluates to the
defined value 100.  On a constant-price series the RSI is undefined at every
row. -/
theorem claim_C3 (cfg : Config) (data : List Bar) :
    (∀ i g, (avgLossCol cfg data).getD i PF.nan = PF.num 0 →
      (avgGainCol cfg data).getD i PF.nan = PF.num g →
      (rsiCol cfg data).getD i PF.nan = (if g = 0 then PF.nan else PF.num 100)) ∧
    (∀ c, (∀ b ∈ data, b.close = c) →
      ∀ i, i < data.length → (rsiCol cfg data).getD i PF.nan = PF.nan) := by
  constructor
  · intro i g hL hG
    have hi : i < data.length := by
      by_contra hni
      rw [getD_of_length_le _ _ _ (by simp; omega)] at hL
      exact PF.noConfusion hL
    rw [rsiCol_getD cfg data i hi, rsCol_getD cfg data i hi, hG, hL]
    rcases lt_trichotomy g 0 with hg | hg | hg
    · rw [PF.div_num_zero]
      simp only [asymm hg, if_false, hg, if_true]
      norm_num [hg.ne]
    · subst hg
      rw [PF.div_num_zero]
      simp
    · rw [PF.div_num_zero]
      simp only [hg, if_true]
      norm_num [hg.ne']
  · intro c hc i hi
    rw [rsiCol_getD cfg data i hi, rsCol_getD cfg data i hi]
    simp only [avgGainCol, avgLossCol]
    rw [rollingMean_allZero cfg.rsi_period (gainCol data) (gainCol_const data c hc) i
        (by simp [hi]),
      rollingMean_allZero cfg.rsi_period (lossCol data) (lossCol_const data c hc) i
        (by simp [hi])]
    by_cases hw : i + 1 < cfg.rsi_period
    · simp [hw]
    · rcases Nat.eq_zero_or_pos cfg.rsi_period with hp | hp
      · simp [hw, hp, PF.div]
      · simp [hw, PF.div, hp.ne']

/-- C3 counterexample: on the strictly rising three-bar series with
rsi_period 2, row 2 has zero average loss yet its RSI is the defined value
100 (RS is +infinity), refuting "average loss zero implies RSI undefined". -/
theorem claim_C3_counterexample :
    (avgLossCol cfgW threeBars).getD 2 PF.nan = PF.num 0 ∧
    (rsiCol cfgW threeBars).getD 2 PF.nan = PF.num 100 ∧
    ¬ (rsiCol cfgW threeBars).getD 2 PF.nan = PF.nan := by
  have h1 : (avgLossCol cfgW threeBars).getD 2 PF.nan = PF.num 0 := by
    norm_num [sortBars, defaultConfig, cfgW, threeBars, constBars, flatBar, closeCol, deltaCol, gainCol, lossCol, avgGainCol, avgLossCol, rsCol, rsiCol, rollingApply, rollingMean, diffK, zipW, PF.add, PF.div, PF.sub, PF.neg, PF.lt, PF.gt, PF.isNan, List.range_succ]
  have h2 : (rsiCol cfgW threeBars).getD 2 PF.nan = PF.num 100 := by
    norm_num [sortBars, defaultConfig, cfgW, threeBars, constBars, flatBar, closeCol, deltaCol, gainCol, lossCol, avgGainCol, avgLossCol, rsCol, rsiCol, rollingApply, rollingMean, diffK, zipW, PF.add, PF.div, PF.sub, PF.neg, PF.lt, PF.gt, PF.isNan, List.range_succ]
  exact ⟨h1, h2, by rw [h2]; simp⟩

/-- Witness for C3 (amended): positive-gain case at row 1 of the rising
series (average gain 1/2, average loss 0, RSI 100), and the constant-price
case at row 0 of the constant series (RSI undefined). -/
theorem claim_C3_witness :
    (rsiCol cfgW threeBars).getD 1 PF.nan = PF.num 100 ∧
    (rsiCol cfgW constBars).getD 0 PF.nan = PF.nan := by
  constructor
  · have h := (claim_C3 cfgW threeBars).1 1 (1/2)
      (by norm_num [sortBars, defaultConfig, cfgW, threeBars, constBars, flatBar, closeCol, deltaCol, gainCol, lossCol, avgGainCol, avgLossCol, rsCol, rsiCol, rollingApply, rollingMean, diffK, zipW, PF.add, PF.div, PF.sub, PF.neg, PF.lt, PF.gt, PF.isNan, List.range_succ]) (by norm_num [sortBars, defaultConfig, cfgW, threeBars, constBars, flatBar, closeCol, deltaCol, gainCol, lossCol, avgGainCol, avgLossCol, rsCol, rsiCol, rollingApply, rollingMean, diffK, zipW, PF.add, PF.div, PF.sub, PF.neg, PF.lt, PF.gt, PF.isNan, List.range_succ])
    rw [h]
    norm_num
  · exact (claim_C3 cfgW constBars).2 5
      (by
        intro b hb
        simp only [constBars, List.mem_cons, List.not_mem_nil, or_false] at hb
        rcases hb with h | h | h <;> simp [h, flatBar])
      0 (by norm_num [constBars])

/-- Concrete instantiation of the abstract Python `**` primitive. -/
def pw0 : PF → ℚ → PF := fun _ _ => PF.nan

/-- Concrete instantiation of the abstract square-root primitive. -/
def sq0 : PF → PF := fun _ => PF.nan

/-- Two weekly bars with closes 1 and 2. -/
def twoBars : List Bar := [flatBar 0 1, flatBar 7 2]

/-- The enriched row produced for the single bar of `oneBar` (long windows:
every indicator is `nan`, the trend signal defaults to 0.0, the position to
the 0.0 tier). -/
def rowO : Row :=
  { date := 0, close := 1, trend_signal := PF.num 0, rsi := PF.nan,
    composite_signal := PF.nan, position := PF.num 0, stop_loss := PF.nan }

/-- The second enriched row produced for `twoBars`. -/
def rowT : Row :=
  { date := 7, close := 2, trend_signal := PF.num 0, rsi := PF.nan,
    composite_signal := PF.nan, position := PF.num 0, stop_loss := PF.nan }

/-- A one-row frame (calendar span zero). -/
def statsRows1 : List Row := [rowO]

/-- A two-row frame spanning seven calendar days. -/
def statsRows2 : List Row := [rowO, rowT]

/-- The statistics record `calculate_stats pw0 sq0 statsRows2` produces. -/
def cStats2 : Stats :=
  { total_return := PF.num 0, annual_return := PF.nan, max_drawdown := PF.num 0,
    sharpe_ratio := PF.nan, win_rate := PF.nan, trade_count := 0,
    volatility := PF.nan }

/-- C7: the empty input series is a hard failure of `run_strategy` — the
statistics step indexes `clean_df.index[-1]` on an empty frame and raises,
so no success result (empty or otherwise) is ever returned. -/
theorem claim_C7 (pw : PF → ℚ → PF) (sq : PF → PF) (cfg : Config) :
    run_strategy pw sq cfg [] = Except.error "IndexError" := rfl

/-- C6 (amended): whenever `calculate_stats` returns a statistics record,
its annual_return equals `pw(1 + total_return, 365/total_days) − 1` with
total_days the calendar span between the first and last retained row; but
when that span is zero (and at least one row is retained) the computation
raises a ZeroDivisionError instead of completing with an undefined
annual_return. -/
theorem claim_C6 (pw : PF → ℚ → PF) (sq : PF → PF) (rows : List Row) :
    (∀ s, calculate_stats pw sq rows = Except.ok s →
      s.annual_return = PF.sub (pw (PF.add (PF.num 1) s.total_return)
        (365 / (((((cleanRows rows).getLastD default).date -
                  ((cleanRows rows).headD default).date : ℤ)) : ℚ))) (PF.num 1)) ∧
    (¬ cleanRows rows = [] →
      ((cleanRows rows).getLastD default).date = ((cleanRows rows).headD default).date →
      calculate_stats pw sq rows = Except.error "ZeroDivisionError") := by
  constructor
  · intro s hs
    simp only [calculate_stats] at hs
    by_cases hE : (cleanRows rows).isEmpty
    · rw [if_pos (by simpa using hE)] at hs
      exact Except.noConfusion hs
    · rw [if_neg (by simpa using hE)] at hs
      by_cases hT : ((((cleanRows rows).getLastD default).date -
          ((cleanRows rows).headD default).date : ℤ) : ℚ) / 365 = 0
      · rw [if_pos hT] at hs
        exact Except.noConfusion hs
      · rw [if_neg hT, Except.ok.injEq] at hs
        subst hs
        dsimp only
        rw [one_div_div]
  · intro hne hdate
    have hE : (cleanRows rows).isEmpty = false := by
      simpa [List.isEmpty_iff] using hne
    have hT : ((((cleanRows rows).getLastD default).date -
        ((cleanRows rows).headD default).date : ℤ) : ℚ) / 365 = 0 := by
      rw [hdate]
      simp
    have hdate2 := hdate
    simp only [List.getLastD_eq_getLast?, List.headD_eq_head?] at hdate2
    simp [calculate_stats, hE, hT, hdate2]

@[simp] lemma PF.mul_nan_right (a : PF) : PF.mul a PF.nan = PF.nan := by cases a <;> rfl

@[simp] lemma PF.mul_nan_left (b : PF) : PF.mul PF.nan b = PF.nan := by cases b <;> rfl

@[simp] lemma PF.sub_nan_left (b : PF) : PF.sub PF.nan b = PF.nan := by cases b <;> rfl

lemma twoBars_sort : sortBars twoBars = twoBars := by
  norm_num [sortBars, twoBars, flatBar, dateLe]

lemma twoBars_len : twoBars.length = 2 := by norm_num [twoBars]

lemma twoBars_close : closeCol twoBars = [PF.num 1, PF.num 2] := by
  norm_num [closeCol, twoBars, flatBar]

lemma twoBars_maLong : maLongCol defaultConfig twoBars = [PF.nan, PF.nan] := by
  norm_num [maLongCol, rollingMean, rollingApply, twoBars_close, defaultConfig,
    List.range_succ]

lemma twoBars_maShort : maShortCol defaultConfig twoBars = [PF.nan, PF.nan] := by
  norm_num [maShortCol, rollingMean, rollingApply, twoBars_close, defaultConfig,
    List.range_succ]

lemma twoBars_trend : trendSignalCol defaultConfig twoBars = [PF.num 0, PF.num 0] := by
  norm_num [trendSignalCol, zipW, twoBars_close, twoBars_maLong, PF.gt,
    List.range_succ]

lemma twoBars_rsi : rsiCol defaultConfig twoBars = [PF.nan, PF.nan] := by
  norm_num [rsiCol, rsCol, avgGainCol, avgLossCol, gainCol, lossCol, deltaCol,
    twoBars_close, rollingMean, rollingApply, diffK, zipW, defaultConfig,
    List.range_succ]

lemma twoBars_maSlope : maSlopeCol defaultConfig twoBars = [PF.nan, PF.nan] := by
  norm_num [maSlopeCol, diffK, shiftK, zipW, twoBars_maShort, List.range_succ]

lemma twoBars_slope : slopeSignalCol defaultConfig twoBars = [PF.nan, PF.nan] := by
  norm_num [slopeSignalCol, rollingMax, rollingMin, rollingApply, zipW,
    twoBars_maSlope, PF.clip01, List.range_succ]

lemma twoBars_hist : macdHistCol defaultConfig twoBars =
    [PF.num 0, PF.num (112/1755)] := by
  norm_num [macdHistCol, macdCol, macdSignalCol, ewmMean, ewmVal, zipW,
    twoBars_close, defaultConfig, List.range_succ]

lemma twoBars_momentum : momentumSignalCol defaultConfig twoBars = [PF.nan, PF.nan] := by
  norm_num [momentumSignalCol, rsiNormCol, macdNormCol, rollingMax, rollingMin,
    rollingApply, zipW, scalMul, twoBars_rsi, twoBars_hist, PF.clip01,
    List.range_succ]

lemma twoBars_tr : trCol twoBars = [PF.num 0, PF.num 1] := by
  norm_num [trCol, twoBars, flatBar, List.range_succ]

lemma twoBars_atr : atrCol defaultConfig twoBars = [PF.nan, PF.nan] := by
  norm_num [atrCol, rollingMean, rollingApply, twoBars_tr, twoBars_len,
    defaultConfig, List.range_succ]

lemma twoBars_adx : adxCol defaultConfig twoBars = [PF.nan, PF.nan] := by
  norm_num [adxCol, rollingMean, rollingApply, diffK, shiftK, zipW, twoBars_maShort,
    PF.abs, List.range_succ, show defaultConfig.adx_period = 14 from rfl]

lemma twoBars_vol : volatilityCol defaultConfig twoBars = [PF.nan, PF.nan] := by
  norm_num [volatilityCol, zipW, twoBars_atr, twoBars_close, twoBars_len,
    List.range_succ]

lemma twoBars_environment :
    environmentSignalCol defaultConfig twoBars = [PF.nan, PF.nan] := by
  norm_num [environmentSignalCol, adxNormCol, volNormCol, rollingMax, rollingMin,
    rollingApply, zipW, scalMul, twoBars_adx, twoBars_vol, PF.clip01,
    List.range_succ]

lemma twoBars_composite :
    compositeSignalCol defaultConfig twoBars = [PF.nan, PF.nan] := by
  norm_num [compositeSignalCol, zipW, scalMul, twoBars_trend, twoBars_slope,
    twoBars_momentum, twoBars_environment, List.range_succ]

lemma twoBars_position : positionCol defaultConfig twoBars = [PF.num 0, PF.num 0] := by
  norm_num [positionCol, twoBars_composite, calculate_position_size]

lemma twoBars_stop : stopLossCol defaultConfig twoBars = [PF.nan, PF.nan] := by
  norm_num [stopLossCol, twoBars_len, defaultConfig, List.range_succ]

lemma twoBars_enrich : enrich defaultConfig twoBars = statsRows2 := by
  simp only [enrich, twoBars_sort, twoBars_trend, twoBars_rsi, twoBars_composite,
    twoBars_position, twoBars_stop, twoBars_len]
  norm_num [twoBars, flatBar, statsRows2, rowO, rowT, List.range_succ]

lemma statsRows2_stats : calculate_stats pw0 sq0 statsRows2 = Except.ok cStats2 := by
  norm_num [calculate_stats, cleanRows, pfNeZero, pctChange, cumprodSkipna, cummaxList,
    listMinSkipna, pfMean, pfStd, fillnaQ, diffK, shiftK, zipW, statsRows2, rowO, rowT,
    cStats2, pw0, sq0, PF.add, PF.mul, PF.div, PF.sub, PF.neg, PF.lt, PF.gt, PF.eqv,
    PF.isNan, pfMax2, pfMin2, List.range_succ]

lemma statsRows1_stats :
    calculate_stats pw0 sq0 statsRows1 = Except.error "ZeroDivisionError" := by
  norm_num [calculate_stats, cleanRows, pfNeZero, pctChange, cumprodSkipna, cummaxList,
    listMinSkipna, pfMean, pfStd, fillnaQ, diffK, shiftK, zipW, statsRows1, rowO,
    pw0, sq0, PF.add, PF.mul, PF.div, PF.sub, PF.neg, PF.lt, PF.gt, PF.eqv, PF.isNan,
    List.range_succ]

/-- C6 counterexample: a one-row frame (calendar span 0, position defined)
makes `calculate_stats` raise ZeroDivisionError instead of completing with an
undefined annual_return and the other statistics. -/
theorem claim_C6_counterexample :
    ¬ cleanRows statsRows1 = [] ∧
    ((cleanRows statsRows1).getLastD default).date =
      ((cleanRows statsRows1).headD default).date ∧
    calculate_stats pw0 sq0 statsRows1 = Except.error "ZeroDivisionError" := by
  refine ⟨?_, ?_, statsRows1_stats⟩ <;> norm_num [cleanRows, statsRows1, rowO, PF.isNan]

/-- Witness for C6 (amended): the two-row frame succeeds and its
annual_return uses the exponent 365/7; the one-row frame raises. -/
theorem claim_C6_witness :
    calculate_stats pw0 sq0 statsRows2 = Except.ok cStats2 ∧
    cStats2.annual_return = PF.sub (pw0 (PF.add (PF.num 1) cStats2.total_return)
      (365 / (((((cleanRows statsRows2).getLastD default).date -
                ((cleanRows statsRows2).headD default).date : ℤ)) : ℚ))) (PF.num 1) ∧
    calculate_stats pw0 sq0 statsRows1 = Except.error "ZeroDivisionError" := by
  refine ⟨statsRows2_stats, (claim_C6 pw0 sq0 statsRows2).1 cStats2 statsRows2_stats,
    (claim_C6 pw0 sq0 statsRows1).2 ?_ ?_⟩ <;>
    norm_num [cleanRows, statsRows1, rowO, PF.isNan]

/-- C9: whenever `run_strategy` returns, the enriched sequence has exactly
as many rows as the input and carries the input dates in sorted order (the
sort of `sort_index()`), a permutation of the input dates — no row is
dropped or added by any enrichment stage. -/
theorem claim_C9 (pw : PF → ℚ → PF) (sq : PF → PF) (cfg : Config) (data : List Bar)
    (rows : List Row) (stats : Stats)
    (h : run_strategy pw sq cfg data = Except.ok (rows, stats)) :
    rows.length = data.length ∧
    rows.map Row.date = (sortBars data).map Bar.date ∧
    List.Sorted (fun a b => a ≤ b) (rows.map Row.date) ∧
    (rows.map Row.date).Perm (data.map Bar.date) := by
  have hrows : rows = enrich cfg data := by
    rcases hcs : calculate_stats pw sq (enrich cfg data) with e | s2
    · simp only [run_strategy, hcs, Except.map] at h
      exact Except.noConfusion h
    · simp only [run_strategy, hcs, Except.map] at h
      rw [Except.ok.injEq, Prod.mk.injEq] at h
      exact h.1.symm
  subst hrows
  have hmap : (enrich cfg data).map Row.date = (sortBars data).map Bar.date := by
    simp only [enrich]
    rw [List.map_map]
    exact rangeMap_getD_map (sortBars data) Bar.date default
  refine ⟨by simp, hmap, ?_, ?_⟩
  · rw [hmap]
    exact (List.pairwise_map).mpr (List.sorted_insertionSort dateLe data)
  · rw [hmap]
    exact (List.perm_insertionSort dateLe data).map Bar.date

/-- Witness for C9: on the two-bar series `run_strategy` succeeds and the
returned frame has both rows with the sorted dates. -/
theorem claim_C9_witness :
    run_strategy pw0 sq0 defaultConfig twoBars = Except.ok (statsRows2, cStats2) ∧
    statsRows2.length = twoBars.length ∧
    statsRows2.map Row.date = (sortBars twoBars).map Bar.date := by
  have hok : run_strategy pw0 sq0 defaultConfig twoBars =
      Except.ok (statsRows2, cStats2) := by
    simp only [run_strategy, twoBars_enrich, statsRows2_stats, Except.map]
  exact ⟨hok,
    (claim_C9 pw0 sq0 defaultConfig twoBars statsRows2 cStats2 hok).1,
    (claim_C9 pw0 sq0 defaultConfig twoBars statsRows2 cStats2 hok).2.1⟩

lemma oneBar_enrich : enrich defaultConfig oneBar = [rowO] := by
  norm_num [enrich, sortBars, defaultConfig, oneBar, flatBar, rowO,
    compositeSignalCol, trendSignalCol, slopeSignalCol, momentumSignalCol,
    environmentSignalCol, rsiNormCol, macdNormCol, adxNormCol, volNormCol, rsiCol,
    rsCol, avgGainCol, avgLossCol, gainCol, lossCol, deltaCol, closeCol, maLongCol,
    maShortCol, maSlopeCol, macdCol, macdSignalCol, macdHistCol, trCol, atrCol, adxCol,
    volatilityCol, positionCol, stopLossCol, calculate_position_size,
    calculate_stop_loss, rollingApply, rollingMean, rollingMax, rollingMin, shiftK,
    diffK, zipW, scalMul, fillnaQ, ewmVal, ewmMean, pyMax, pfMax2, pfMin2, PF.add,
    PF.mul, PF.div, PF.sub, PF.neg, PF.lt, PF.gt, PF.ge, PF.eqv, PF.abs, PF.clip01,
    PF.isNan, List.range_succ]

/-- Witness for C10 at the single row of the one-bar series. -/
theorem claim_C10_witness :
    rowO ∈ enrich defaultConfig oneBar ∧
    (rowO.position = PF.num 0 ∨ rowO.position = PF.num (8/10) ∨
     rowO.position = PF.num 1 ∨ rowO.position = PF.num (12/10) ∨
     rowO.position = PF.num (14/10)) := by
  have hmem : rowO ∈ enrich defaultConfig oneBar := by
    rw [oneBar_enrich]
    exact List.mem_singleton.mpr rfl
  exact ⟨hmem, (claim_C10 defaultConfig oneBar).2.2.1 rowO hmem⟩
